import Mathlib

/-!
Shallow embedding of the ggit-svn cache/lock core
(src/ggit/locker.py and src/ggit/_svn.py).

Representation choices, justified against the source:
* The sqlite row `(id, readers, writer, tid)` of `SvnCacheLock` is modelled by
  `LockData`.  In the source `readers` is a string that is a concatenation of
  holder-id blocks of the form `-<pid>-` (appended by `lock()`, removed by
  `str.replace`, tested by substring `in`).  Since a block `-q-` (with `q`
  containing no dash) occurs as a substring of a concatenation of blocks
  `-p1-…-pn-` iff `q` equals some `pi`, membership is block membership and
  `replace(id, '')` removes exactly the blocks equal to `id`; we therefore
  model `readers` as a `List String` of holder-id blocks, substring tests as
  list membership, and `replace` as `List.filter`.  The `writer` string is
  either empty or one single block, modelled as `Option String`.
* Python truthiness `if data['writer']:` becomes `Option.isSome`,
  `if data['readers']:` becomes `≠ []`.
* A `SqliteTransaction` commits on normal exit and rolls back when the body
  raises (`SqliteTransaction.__exit__` forwards a non-abort exception to the
  sqlite3 connection's `__exit__`, which rolls back; moreover every raising
  path in the lock operations raises before `_write_data` is reached).  So an
  operation either returns a new row (committed) or an error with the row
  unchanged: type `Except LockErr LockData`.
* `LockAcquireException` and a failing Python `assert` (AssertionError) are
  the two abnormal outcomes: `LockErr.lockAcquire` and `LockErr.assertFail`.
-/

namespace GgitSvn

/-- `SvnCacheLock._lockid`: the holder id written into the lock row, computed
as the Python expression `'-%s-' % os.getpid()` — the bare OS process id
wrapped in dashes, with no per-lock-object component. -/
def lockidOf (pid : Nat) : String := "-" ++ toString pid ++ "-"

/-- A lock object (`SvnCacheLock` and its two subclasses share these fields):
the directory `root` passed to the constructor, and the pid of the process
that constructed it (`os.getpid()` as observed by `_lockid`). -/
structure SvnCacheLock where
  root : String
  pid  : Nat
deriving DecidableEq, Repr

/-- `SvnCacheLock.lfilename = '.lockfile'`. -/
def SvnCacheLock.lfilename : String := ".lockfile"

/-- `SvnCacheLock.lockfile = os.path.join(self.root, self.lfilename)`;
`root` does not end in a slash in any call site, so the join is
`root ++ "/" ++ lfilename`. -/
def SvnCacheLock.lockfile (l : SvnCacheLock) : String :=
  l.root ++ "/" ++ SvnCacheLock.lfilename

/-- The `_lockid` property of a lock object. -/
def SvnCacheLock.lockid (l : SvnCacheLock) : String := lockidOf l.pid

/-- The persisted single row of table `ggit_svn_cache` inside a lock file. -/
structure LockData where
  readers : List String
  writer  : Option String
  tid     : Nat
deriving DecidableEq, Repr

/-- Abnormal outcomes of a lock operation: `LockAcquireException`, or a
failing `assert` (Python `AssertionError`). -/
inductive LockErr where
  | lockAcquire
  | assertFail
deriving DecidableEq, Repr

/-- The row inserted by `_initialize_database`: `0, "", "", "0"`. -/
def initRow : LockData := { readers := [], writer := none, tid := 0 }

/-- `SvnCacheLock._write_data`: store the new `readers`/`writer` values and
increment `tid` by one, inside the enclosing transaction. -/
def writeRow (d : LockData) (readers : List String) (writer : Option String) :
    LockData :=
  { readers := readers, writer := writer, tid := d.tid + 1 }

/-- `SvnCacheReaderLock.lock`: fail if a writer is present; assert this
holder id is not already a reader; append it to `readers`. -/
def readerLock (id : String) (d : LockData) : Except LockErr LockData :=
  if d.writer.isSome then .error .lockAcquire
  else if id ∈ d.readers then .error .assertFail
  else .ok (writeRow d (d.readers ++ [id]) d.writer)

/-- `SvnCacheReaderLock.unlock`: assert this holder id is a reader and is not
the writer; remove every occurrence of it from `readers`
(`str.replace(lockid, '')`). -/
def readerUnlock (id : String) (d : LockData) : Except LockErr LockData :=
  if id ∉ d.readers then .error .assertFail
  else if d.writer = some id then .error .assertFail
  else .ok (writeRow d (d.readers.filter (fun r => r ≠ id)) d.writer)

/-- `SvnCacheReaderLock.upgrade`: fail if a writer is present; assert this
holder id is a reader; remove it (the filtered list below is the source's
reassigned `data['readers']`, written out twice in place of the Python local);
fail if other readers remain; else install this holder id as the writer.
All inside one transaction. -/
def readerUpgrade (id : String) (d : LockData) : Except LockErr LockData :=
  if d.writer.isSome then .error .lockAcquire
  else if id ∉ d.readers then .error .assertFail
  else if d.readers.filter (fun r => r ≠ id) ≠ [] then .error .lockAcquire
  else .ok (writeRow d (d.readers.filter (fun r => r ≠ id)) (some id))

/-- `SvnCacheWriterLock.lock`: fail if a writer or any reader is present;
else install this holder id as the writer. -/
def writerLock (id : String) (d : LockData) : Except LockErr LockData :=
  if d.writer.isSome then .error .lockAcquire
  else if d.readers ≠ [] then .error .lockAcquire
  else .ok (writeRow d d.readers (some id))

/-- `SvnCacheWriterLock.unlock`: assert this holder id equals the writer
field; clear the writer. -/
def writerUnlock (id : String) (d : LockData) : Except LockErr LockData :=
  if d.writer ≠ some id then .error .assertFail
  else .ok (writeRow d d.readers none)

/-- The five lock operations, for quantifying over "every lock operation". -/
inductive LockOp where
  | rlock | runlock | upgrade | wlock | wunlock
deriving DecidableEq, Repr

def applyOp : LockOp → String → LockData → Except LockErr LockData
  | .rlock   => readerLock
  | .runlock => readerUnlock
  | .upgrade => readerUpgrade
  | .wlock   => writerLock
  | .wunlock => writerUnlock

/-- One lock operation as a transition on the persisted row: on success the
committed row, on an exception the row unchanged (transaction rolled back). -/
def stepOp (op : LockOp) (id : String) (d : LockData) :
    LockData × Option LockErr :=
  match applyOp op id d with
  | .ok d'    => (d', none)
  | .error e  => (d, some e)

/-- A sequence of lock operations against one lock file. -/
def runOps (ops : List (LockOp × String)) (d : LockData) : LockData :=
  ops.foldl (fun d oi => (stepOp oi.1 oi.2 d).1) d

/-- The lock-row invariant: a non-empty `writer` implies `readers` is empty. -/
def lockInv (d : LockData) : Prop := d.writer.isSome → d.readers = []

instance (d : LockData) : Decidable (lockInv d) := by
  unfold lockInv; infer_instance

/-! Theorems about the lock layer. -/

/-- Claim C2, counterexample: two distinct lock objects created in the same
process (same pid, different roots) have equal holder ids, because `_lockid`
is derived from the bare process id alone. -/
theorem lockid_not_unique_per_object :
    (SvnCacheLock.mk "rootA" 7) ≠ (SvnCacheLock.mk "rootB" 7) ∧
    (SvnCacheLock.mk "rootA" 7).lockid = (SvnCacheLock.mk "rootB" 7).lockid := by
  constructor
  · intro h
    exact absurd (congrArg SvnCacheLock.root h) (by decide)
  · rfl

/-- Claim C2 (amended): the holder id of a lock object is computed from the
OS process id alone (the string `-<pid>-`); in particular any two lock
objects constructed in the same process — against the same lock file or not —
carry the same holder id. -/
theorem lockid_determined_by_pid (l1 l2 : SvnCacheLock) (h : l1.pid = l2.pid) :
    l1.lockid = l2.lockid := by
  unfold SvnCacheLock.lockid
  rw [h]

/-- Witness for `lockid_determined_by_pid` at a concrete pair of lock
objects. -/
theorem lockid_determined_by_pid_witness :
    (SvnCacheLock.mk "a" 3).lockid = (SvnCacheLock.mk "b" 3).lockid :=
  lockid_determined_by_pid (SvnCacheLock.mk "a" 3) (SvnCacheLock.mk "b" 3) rfl

/-- Claim C3: if the calling reader holds the lock and at least one other
holder id is present in the readers set, `upgrade()` fails with the lock
conflict error (`LockAcquireException`) and the persisted row — in particular
the caller's membership in `readers` — is exactly as before the call. -/
theorem upgrade_with_other_reader_conflicts (id other : String) (d : LockData)
    (hid : id ∈ d.readers) (hother : other ∈ d.readers) (hne : other ≠ id) :
    stepOp .upgrade id d = (d, some .lockAcquire) := by
  have hrs : d.readers.filter (fun r => r ≠ id) ≠ [] := by
    intro hnil
    have hmem : other ∈ d.readers.filter (fun r => r ≠ id) :=
      List.mem_filter.mpr ⟨hother, by simp [hne]⟩
    rw [hnil] at hmem
    exact List.not_mem_nil other hmem
  simp only [stepOp, applyOp]
  unfold readerUpgrade
  by_cases hw : d.writer.isSome
  · rw [if_pos hw]
  · rw [if_neg hw, if_neg (not_not_intro hid), if_pos hrs]

/-- Witness for `upgrade_with_other_reader_conflicts`: two readers `-1-` and
`-2-` hold the lock; `-1-`'s upgrade fails and leaves the row unchanged. -/
theorem upgrade_with_other_reader_conflicts_witness :
    stepOp .upgrade (lockidOf 1)
        { readers := [lockidOf 1, lockidOf 2], writer := none, tid := 5 } =
      ({ readers := [lockidOf 1, lockidOf 2], writer := none, tid := 5 },
        some .lockAcquire) :=
  upgrade_with_other_reader_conflicts (lockidOf 1) (lockidOf 2)
    { readers := [lockidOf 1, lockidOf 2], writer := none, tid := 5 }
    (by decide) (by decide) (by decide)

/-- Claim C7: the initialized row satisfies the invariant "writer non-empty ⇒
readers empty", and every lock operation (reader lock/unlock, upgrade, writer
lock/unlock), applied by any holder to any row satisfying the invariant,
yields a row that still satisfies it (a failed operation leaves the row
unchanged). -/
theorem lock_row_invariant :
    lockInv initRow ∧
    ∀ (op : LockOp) (id : String) (d : LockData),
      lockInv d → lockInv (stepOp op id d).1 := by
  refine ⟨by decide, ?_⟩
  intro op id d hInv
  cases op
  case rlock =>
    simp only [stepOp, applyOp]
    unfold readerLock writeRow
    split_ifs with h1 h2 <;>
      first
        | exact hInv
        | · intro hw
            exact absurd hw h1
  case runlock =>
    simp only [stepOp, applyOp]
    unfold readerUnlock writeRow
    split_ifs with h1 h2 <;>
      first
        | exact hInv
        | · intro hw
            have hre : d.readers = [] := hInv hw
            show d.readers.filter (fun r => r ≠ id) = []
            rw [hre]
            rfl
  case upgrade =>
    simp only [stepOp, applyOp]
    unfold readerUpgrade writeRow
    split_ifs with h1 h2 h3 <;>
      first
        | exact hInv
        | · intro _
            show d.readers.filter (fun r => r ≠ id) = []
            first
              | exact not_not.mp h3
              | exact h3
  case wlock =>
    simp only [stepOp, applyOp]
    unfold writerLock writeRow
    split_ifs with h1 h2 <;>
      first
        | exact hInv
        | · intro _
            show d.readers = []
            first
              | exact not_not.mp h2
              | exact h2
  case wunlock =>
    simp only [stepOp, applyOp]
    unfold writerUnlock writeRow
    split_ifs with h1 <;>
      first
        | exact hInv
        | · intro hw
            have hw2 : (Option.none : Option String).isSome = true := hw
            simp at hw2

/-- Witness for `lock_row_invariant`: a concrete reader acquisition from the
initialized row preserves the invariant. -/
theorem lock_row_invariant_witness :
    lockInv (stepOp .rlock (lockidOf 1) initRow).1 :=
  lock_row_invariant.2 .rlock (lockidOf 1) initRow (by decide)

/-- Claim C8: a successful lock operation commits exactly one `_write_data`,
which increments `tid` by exactly one; a failed operation leaves `tid`
unchanged; consequently over any sequence of lock operations on one lock file
the persisted `tid` never decreases. -/
theorem tid_increment_monotone :
    (∀ (op : LockOp) (id : String) (d d' : LockData),
        applyOp op id d = .ok d' → d'.tid = d.tid + 1) ∧
    (∀ (op : LockOp) (id : String) (d : LockData) (e : LockErr),
        applyOp op id d = .error e → (stepOp op id d).1.tid = d.tid) ∧
    (∀ (ops : List (LockOp × String)) (d : LockData),
        d.tid ≤ (runOps ops d).tid) := by
  have hok : ∀ (op : LockOp) (id : String) (d d' : LockData),
      applyOp op id d = .ok d' → d'.tid = d.tid + 1 := by
    intro op id d d' h
    cases op
    case rlock =>
      simp only [applyOp] at h
      unfold readerLock at h
      split_ifs at h <;> try exact Except.noConfusion h
      injection h with h2
      rw [← h2]
      rfl
    case runlock =>
      simp only [applyOp] at h
      unfold readerUnlock at h
      split_ifs at h <;> try exact Except.noConfusion h
      injection h with h2
      rw [← h2]
      rfl
    case upgrade =>
      simp only [applyOp] at h
      unfold readerUpgrade at h
      split_ifs at h <;> try exact Except.noConfusion h
      injection h with h2
      rw [← h2]
      rfl
    case wlock =>
      simp only [applyOp] at h
      unfold writerLock at h
      split_ifs at h <;> try exact Except.noConfusion h
      injection h with h2
      rw [← h2]
      rfl
    case wunlock =>
      simp only [applyOp] at h
      unfold writerUnlock at h
      split_ifs at h <;> try exact Except.noConfusion h
      injection h with h2
      rw [← h2]
      rfl
  have hstep : ∀ (op : LockOp) (id : String) (d : LockData),
      d.tid ≤ (stepOp op id d).1.tid := by
    intro op id d
    unfold stepOp
    cases heq : applyOp op id d with
    | ok d' =>
        have := hok op id d d' heq
        simp only []
        omega
    | error e => exact Nat.le_refl _
  refine ⟨hok, ?_, ?_⟩
  · intro op id d e h
    unfold stepOp
    rw [h]
  · intro ops
    induction ops with
    | nil => intro d; exact Nat.le_refl _
    | cons oi rest ih =>
        intro d
        calc d.tid ≤ (stepOp oi.1 oi.2 d).1.tid := hstep oi.1 oi.2 d
          _ ≤ (runOps rest (stepOp oi.1 oi.2 d).1).tid := ih _
          _ = (runOps (oi :: rest) d).tid := rfl

/-- Witness for `tid_increment_monotone` at a concrete operation: a reader
acquisition from the initialized row bumps `tid` from 0 to 1. -/
theorem tid_increment_monotone_witness :
    (writeRow initRow [lockidOf 1] none).tid = initRow.tid + 1 :=
  tid_increment_monotone.1 .rlock (lockidOf 1) initRow
    (writeRow initRow [lockidOf 1] none) (by rfl)

/-- Claim C10: after a successful `upgrade()`, calling `unlock()` on the
original (consumed) reader lock hits the assertion `lockid in readers`
(the upgrade removed this holder from `readers`), so the unlock aborts with
an AssertionError instead of returning cleanly — hence any `with`-scope that
holds the reader across a successful upgrade fails on scope exit. -/
theorem unlock_after_upgrade_asserts (id : String) (d d' : LockData)
    (h : readerUpgrade id d = .ok d') :
    readerUnlock id d' = .error .assertFail := by
  unfold readerUpgrade at h
  split_ifs at h with h1 h2 h3 <;>
    try exact Except.noConfusion h
  have hrs : d.readers.filter (fun r => r ≠ id) = [] := by
    first
      | exact not_not.mp h3
      | exact h3
  injection h with h4
  subst h4
  simp [readerUnlock, writeRow, hrs]

/-- Witness for `unlock_after_upgrade_asserts`: the sole reader `-1-`
upgrades successfully, then its `unlock()` asserts. -/
theorem unlock_after_upgrade_asserts_witness :
    readerUnlock (lockidOf 1)
        { readers := [], writer := some (lockidOf 1), tid := 3 } =
      .error .assertFail :=
  unlock_after_upgrade_asserts (lockidOf 1)
    { readers := [lockidOf 1], writer := none, tid := 2 }
    { readers := [], writer := some (lockidOf 1), tid := 3 }
    (by rfl)

/-!
Cache layer: shallow embedding of src/ggit/_svn.py.

Representation choices:
* `SvnCacheTag` carries its upstream `path` and its `hash`; in the source the
  hash is the sha256 hex digest of path+version, here it is an opaque field
  (the claims only need that distinct tags may have distinct hashes).
* Revisions are modelled as `Nat` with the numeric order standing for the
  comparison `ecache.revision < rev` performed by `SvnCache.create`.
* The on-disk state relevant to `create` for one tag is `SvnWorld`:
  the local and external tiers' on-disk entry revisions (`none` = the cache
  directory does not exist), the lock rows of the two tiers' lock files
  (`<local_dir>/.lockfile` and `<extern_dir>/.lockfile` — NB the source hands
  `SvnCacheEntry.root`, i.e. the tier directory, to the locks), the remote
  repository's latest ("head") revision for the tag, and the list of external
  commands issued so far.
* External commands (`svn info/checkout/update`, `cp -ra`, `mkdir -p`) are
  modelled as always succeeding, recording their effect on the on-disk
  revisions; `svn checkout` is issued by `SvnCacheEntry.checkout` WITHOUT a
  revision argument, so a fresh checkout materializes at the remote head.
* Python `with lock:` semantics: `__enter__` runs `lock()` (if it raises,
  no `__exit__` runs); `__exit__` always runs `unlock()`, even when the body
  raised, and an exception raised by `unlock()` itself propagates in place of
  the body's exception.
-/

/-- `SvnCacheTag`: upstream path plus the cache-key hash (sha256 of
path+version in the source, opaque here). -/
structure SvnCacheTag where
  path : String
  hash : String
deriving DecidableEq, Repr

/-- `SvnCache._cache_path(dir_, tag) = os.path.join(dir_, tag.hash)`. -/
def cache_path (dir : String) (tag : SvnCacheTag) : String :=
  dir ++ "/" ++ tag.hash

/-- `SvnCacheEntry`: one cached checkout.  `root` is the tier directory the
entry lives under (the constructor argument), `revision`/`depth` are the
values read from disk or chosen at construction. -/
structure SvnCacheEntry where
  tag : SvnCacheTag
  root : String
  revision : Nat
  depth : String
deriving DecidableEq, Repr

/-- `SvnCacheEntry.path = SvnCache._cache_path(self.root, self.tag)`. -/
def SvnCacheEntry.path (e : SvnCacheEntry) : String :=
  cache_path e.root e.tag

/-- `SvnCacheEntry.rlock()` returns `SvnCacheReaderLock(self.root)` — note:
constructed on `self.root`, the tier directory, not on `self.path`. -/
def SvnCacheEntry.rlock (e : SvnCacheEntry) (pid : Nat) : SvnCacheLock :=
  { root := e.root, pid := pid }

/-- `SvnCacheEntry.wlock()` returns `SvnCacheWriterLock(self.root)`. -/
def SvnCacheEntry.wlock (e : SvnCacheEntry) (pid : Nat) : SvnCacheLock :=
  { root := e.root, pid := pid }

/-- The external commands `SvnCache.create` can issue, in the order they are
run: `svn info` (read-only metadata query), `svn checkout` (remote fetch; the
source passes no `-r` flag), `svn update -r rev` (remote fetch), `cp -ra`
(local recursive copy), `mkdir -p`. -/
inductive SvnCmd where
  | info (path : String)
  | checkout (url loc : String)
  | update (rev : Nat) (path : String)
  | copyDir (src dst : String)
  | mkdirp (dir : String)
deriving DecidableEq, Repr

/-- Remote fetch / VCS-mutating commands: `svn checkout` and `svn update`. -/
def SvnCmd.isFetch : SvnCmd → Bool
  | .checkout _ _ => true
  | .update _ _ => true
  | _ => false

/-- Number of remote fetch commands in a command log. -/
def fetchCount (log : List SvnCmd) : Nat :=
  (log.filter SvnCmd.isFetch).length

/-- The on-disk and remote state relevant to `SvnCache.create` for one tag. -/
structure SvnWorld where
  localRev   : Option Nat
  externRev  : Option Nat
  localLock  : LockData
  externLock : LockData
  remoteHead : Nat
  log        : List SvnCmd
deriving DecidableEq, Repr

/-- `SvnCacheEntry.copy_to` in the extern→local direction, as called from
`SvnCache.create`: `mkdir -p local_dir`; under a writer lock on the
destination tier's lock file, `cp -ra ecache.path local_dir` (the copy
reproduces the external entry's current on-disk state in the local tier). -/
def copy_to_local (localDir edir : String) (tag : SvnCacheTag) (id : String)
    (w : SvnWorld) : SvnWorld × Option LockErr :=
  let w := { w with log := w.log ++ [SvnCmd.mkdirp localDir] }
  match writerLock id w.localLock with
  | .error e => (w, some e)
  | .ok ll =>
    let w := { w with localLock := ll }
    let w := { w with localRev := w.externRev,
                      log := w.log ++ [SvnCmd.copyDir (cache_path edir tag) localDir] }
    match writerUnlock id w.localLock with
    | .error e => (w, some e)
    | .ok ll2 => ({ w with localLock := ll2 }, none)

/-- `SvnCacheEntry.copy_to` in the local→extern direction (seeding the
external tier from a local entry). -/
def copy_to_extern_tier (localDir edir : String) (tag : SvnCacheTag) (id : String)
    (w : SvnWorld) : SvnWorld × Option LockErr :=
  let w := { w with log := w.log ++ [SvnCmd.mkdirp edir] }
  match writerLock id w.externLock with
  | .error e => (w, some e)
  | .ok el =>
    let w := { w with externLock := el }
    let w := { w with externRev := w.localRev,
                      log := w.log ++ [SvnCmd.copyDir (cache_path localDir tag) edir] }
    match writerUnlock id w.externLock with
    | .error e => (w, some e)
    | .ok el2 => ({ w with externLock := el2 }, none)

/-- Body of the `with ecache.rlock() as lock:` block of `SvnCache.create`
(the reader lock is already held).  `erevAttr` is `ecache.revision` — the
revision attribute read from disk when the external entry object was
constructed, NOT refreshed by the in-place `ecache.update(rev)`.  `hasLocal`
is `lcache is not None`. -/
def create_extern_body (localDir edir : String) (tag : SvnCacheTag)
    (id : String) (rev erevAttr : Nat) (hasLocal : Bool) (w : SvnWorld) :
    SvnWorld × Option LockErr :=
  let step1 : SvnWorld × Option LockErr :=
    if erevAttr < rev then
      match readerUpgrade id w.externLock with
      | .error e => (w, some e)
      | .ok el =>
        let w := { w with externLock := el }
        ({ w with externRev := some rev,
                  log := w.log ++ [SvnCmd.update rev (cache_path edir tag)] },
          none)
    else (w, none)
  match step1 with
  | (w, some e) => (w, some e)
  | (w, none) =>
    if hasLocal then (w, none)
    else
      match copy_to_local localDir edir tag id w with
      | (w, some e) => (w, some e)
      | (w, none) =>
        if rev ≠ erevAttr then
          ({ w with localRev := some rev,
                    log := w.log ++ [SvnCmd.update rev (cache_path localDir tag)] },
            none)
        else (w, none)

/-- The `with ecache.rlock() as lock:` block of `SvnCache.create`: acquire
the reader lock on the external tier's lock file, run the body, and — whether
or not the body raised — run the reader's `unlock()` on scope exit; an
exception from `unlock()` itself propagates. -/
def create_with_ecache (localDir edir : String) (tag : SvnCacheTag) (id : String)
    (rev erevAttr : Nat) (hasLocal : Bool) (w : SvnWorld) :
    SvnWorld × Option LockErr :=
  match readerLock id w.externLock with
  | .error e => (w, some e)
  | .ok el =>
    let w := { w with externLock := el }
    match create_extern_body localDir edir tag id rev erevAttr hasLocal w with
    | (w, e) =>
      match readerUnlock id w.externLock with
      | .ok el2 => ({ w with externLock := el2 }, e)
      | .error e2 => (w, some e2)

/-- The no-external-entry tail of `SvnCache.create`: under a writer lock on
the local tier, perform the first-time `svn checkout` when the local entry is
new (the checkout command carries depth and URL but NO revision, so the
working copy lands at the remote head), and, when an external tier is
configured, copy the local entry outward. -/
def create_no_ecache (localDir : String) (externDir : Option String)
    (tag : SvnCacheTag) (id : String) (isNew : Bool) (w : SvnWorld) :
    SvnWorld × Option LockErr :=
  match writerLock id w.localLock with
  | .error e => (w, some e)
  | .ok ll =>
    let w := { w with localLock := ll }
    let w :=
      if isNew then
        { w with localRev := some w.remoteHead,
                 log := w.log ++ [SvnCmd.checkout tag.path (cache_path localDir tag)] }
      else w
    let body : SvnWorld × Option LockErr :=
      match externDir with
      | none => (w, none)
      | some edir => copy_to_extern_tier localDir edir tag id w
    match body with
    | (w, e) =>
      match writerUnlock id w.localLock with
      | .ok ll2 => ({ w with localLock := ll2 }, e)
      | .error e2 => (w, some e2)

/-- `SvnCache.create(tag, rev)`: look up the local entry and, when an
external tier is configured, the external entry (each lookup issues
`svn info` when the entry directory exists); then either refresh/copy from
the external entry under its reader lock, or perform a first-time checkout
(and optional outward seeding) under the local writer lock. -/
def SvnCache.create (localDir : String) (externDir : Option String)
    (tag : SvnCacheTag) (id : String) (rev : Nat) (w0 : SvnWorld) :
    SvnWorld × Option LockErr :=
  let w :=
    match w0.localRev with
    | some _ => { w0 with log := w0.log ++ [SvnCmd.info (cache_path localDir tag)] }
    | none => w0
  let hasLocal := w.localRev.isSome
  match externDir with
  | some edir =>
    match w.externRev with
    | some erev =>
      let w := { w with log := w.log ++ [SvnCmd.info (cache_path edir tag)] }
      create_with_ecache localDir edir tag id rev erev hasLocal w
    | none => create_no_ecache localDir externDir tag id (!hasLocal) w
  | none => create_no_ecache localDir externDir tag id (!hasLocal) w

/-! Theorems about the cache layer. -/

/-- Cancellation of a common string suffix. -/
theorem string_append_left_cancel (r1 r2 s : String) (h : r1 ++ s = r2 ++ s) :
    r1 = r2 := by
  apply String.ext
  have hd : r1.data ++ s.data = r2.data ++ s.data := by
    have hc := congrArg String.data h
    cases r1; cases r2; cases s
    simpa using hc
  exact List.append_left_injective _ hd

/-- Claim C4, counterexample: a cache entry's lock file is NOT at
`<cache-root>/<tag-hash>/.lockfile` — it is at `<cache-root>/.lockfile`,
directly under the tier root — and two entries for distinct tags under the
same root get the SAME lock file. -/
theorem lockfile_location_counterexample :
    (SvnCacheTag.mk "u1" "h1") ≠ (SvnCacheTag.mk "u2" "h2") ∧
    ((SvnCacheEntry.mk (SvnCacheTag.mk "u1" "h1") "croot" 1 "infinity").rlock 7).lockfile
      = "croot/.lockfile" ∧
    ((SvnCacheEntry.mk (SvnCacheTag.mk "u1" "h1") "croot" 1 "infinity").rlock 7).lockfile
      ≠ (SvnCacheEntry.mk (SvnCacheTag.mk "u1" "h1") "croot" 1 "infinity").path
          ++ "/" ++ SvnCacheLock.lfilename ∧
    ((SvnCacheEntry.mk (SvnCacheTag.mk "u1" "h1") "croot" 1 "infinity").rlock 7).lockfile
      = ((SvnCacheEntry.mk (SvnCacheTag.mk "u2" "h2") "croot" 1 "infinity").rlock 7).lockfile := by
  refine ⟨?_, rfl, ?_, rfl⟩
  · intro h
    exact absurd (congrArg SvnCacheTag.hash h) (by decide)
  · decide

/-- Claim C4 (amended): each cache entry's lock operations act on the lock
file `<cache-root>/.lockfile` of the tier root the entry lives under, so all
tags' entries under one cache root share a single lock file, while entries
under distinct tier roots use distinct lock files. -/
theorem lockfile_per_tier_root :
    (∀ (root d1 d2 : String) (t1 t2 : SvnCacheTag) (r1 r2 p q : Nat),
        ((SvnCacheEntry.mk t1 root r1 d1).rlock p).lockfile =
          ((SvnCacheEntry.mk t2 root r2 d2).rlock q).lockfile) ∧
    (∀ (e1 e2 : SvnCacheEntry) (p q : Nat), e1.root ≠ e2.root →
        (e1.rlock p).lockfile ≠ (e2.rlock q).lockfile) := by
  constructor
  · intro root d1 d2 t1 t2 r1 r2 p q
    rfl
  · intro e1 e2 p q hne h
    apply hne
    have h1 : (e1.root ++ "/") ++ SvnCacheLock.lfilename
        = (e2.root ++ "/") ++ SvnCacheLock.lfilename := h
    have h2 := string_append_left_cancel _ _ _ h1
    exact string_append_left_cancel _ _ _ h2

/-- Witness for `lockfile_per_tier_root`: concrete distinct tier roots give
distinct lock files. -/
theorem lockfile_per_tier_root_witness :
    ((SvnCacheEntry.mk (SvnCacheTag.mk "u" "h") "local" 1 "infinity").rlock 7).lockfile ≠
      ((SvnCacheEntry.mk (SvnCacheTag.mk "u" "h") "ext" 1 "infinity").rlock 7).lockfile :=
  lockfile_per_tier_root.2
    (SvnCacheEntry.mk (SvnCacheTag.mk "u" "h") "local" 1 "infinity")
    (SvnCacheEntry.mk (SvnCacheTag.mk "u" "h") "ext" 1 "infinity")
    7 7 (by decide)

/-- The failing input for claim C1: no local entry, an external entry on disk
at revision 1, both lock rows initialized and free, requested revision 2. -/
def w_C1 : SvnWorld :=
  { localRev := none, externRev := some 1, localLock := initRow,
    externLock := initRow, remoteHead := 2, log := [] }

/-- Claim C1 evaluated on the code at the failing input: `create(tag, 2)`
with an external entry at older revision 1 does update the external entry in
place to 2 (and the local copy reports 2), but the call does NOT complete
without error — releasing the consumed reader lock on `with`-scope exit hits
the `lockid in readers` assertion, so the call aborts with an AssertionError. -/
theorem create_older_extern_updates_then_asserts :
    (SvnCache.create "local" (some "ext") (SvnCacheTag.mk "url" "h")
        (lockidOf 7) 2 w_C1).2 = some .assertFail ∧
    (SvnCache.create "local" (some "ext") (SvnCacheTag.mk "url" "h")
        (lockidOf 7) 2 w_C1).1.externRev = some 2 ∧
    (SvnCache.create "local" (some "ext") (SvnCacheTag.mk "url" "h")
        (lockidOf 7) 2 w_C1).1.localRev = some 2 := by
  refine ⟨rfl, rfl, rfl⟩

/-- The failing input for claim C5: no local and no external entry, local
lock row initialized and free, remote head revision 9, requested revision 5. -/
def w_C5 : SvnWorld :=
  { localRev := none, externRev := none, localLock := initRow,
    externLock := initRow, remoteHead := 9, log := [] }

/-- Claim C5 evaluated on the code at the failing input: a first-time
`create(tag, 5)` completes without error, but the checkout command is issued
without any revision argument, so the resulting local entry is at the remote
head revision 9, not at the requested revision 5. -/
theorem create_fresh_checkout_lands_at_head :
    (SvnCache.create "local" none (SvnCacheTag.mk "url" "h")
        (lockidOf 7) 5 w_C5).2 = none ∧
    (SvnCache.create "local" none (SvnCacheTag.mk "url" "h")
        (lockidOf 7) 5 w_C5).1.localRev = some 9 ∧
    (SvnCache.create "local" none (SvnCacheTag.mk "url" "h")
        (lockidOf 7) 5 w_C5).1.log
      = [SvnCmd.checkout "url" (cache_path "local" (SvnCacheTag.mk "url" "h"))] ∧
    (9 : Nat) ≠ 5 := by
  refine ⟨rfl, rfl, rfl, by decide⟩

/-- The initial state for the claim C6 counterexample: a stale local entry at
revision 5, an external tier configured but empty, remote head 7. -/
def w_C6 : SvnWorld :=
  { localRev := some 5, externRev := none, localLock := initRow,
    externLock := initRow, remoteHead := 7, log := [] }

/-- Claim C6, counterexample: with an external tier configured, a stale local
entry at revision 5 and an empty external tier, `create(tag, 7)` succeeds
without issuing any fetch (it only seeds the external tier by copying), but
the second identical `create(tag, 7)` issues a remote fetch (`svn update` of
the external entry to 7 after a lock upgrade) — and then aborts with an
AssertionError — so `create` is not idempotent. -/
theorem create_twice_fetches_counterexample :
    (SvnCache.create "local" (some "ext") (SvnCacheTag.mk "url" "h")
        (lockidOf 7) 7 w_C6).2 = none ∧
    fetchCount (SvnCache.create "local" (some "ext") (SvnCacheTag.mk "url" "h")
        (lockidOf 7) 7 w_C6).1.log = 0 ∧
    fetchCount (SvnCache.create "local" (some "ext") (SvnCacheTag.mk "url" "h")
        (lockidOf 7) 7
        (SvnCache.create "local" (some "ext") (SvnCacheTag.mk "url" "h")
          (lockidOf 7) 7 w_C6).1).1.log = 1 ∧
    (SvnCache.create "local" (some "ext") (SvnCacheTag.mk "url" "h")
        (lockidOf 7) 7
        (SvnCache.create "local" (some "ext") (SvnCacheTag.mk "url" "h")
          (lockidOf 7) 7 w_C6).1).2 = some .assertFail := by
  refine ⟨rfl, rfl, rfl, rfl⟩


/-- Elimination for a successful `SvnCacheWriterLock.lock`: the row had no
writer and no readers, and the new row installs this holder as writer. -/
theorem writerLock_ok_elim (id : String) (d d' : LockData)
    (h : writerLock id d = .ok d') :
    d.writer = none ∧ d.readers = [] ∧
      d' = { readers := [], writer := some id, tid := d.tid + 1 } := by
  unfold writerLock at h
  split_ifs at h with h1 h2 <;> try exact Except.noConfusion h
  injection h with h4
  have hre : d.readers = [] := by first | exact not_not.mp h2 | exact h2
  refine ⟨?_, hre, ?_⟩
  · cases hd : d.writer with
    | none => rfl
    | some x => rw [hd] at h1; simp at h1
  · rw [← h4]
    unfold writeRow
    rw [hre]

/-- Re-running the no-external-entry branch of `create` on an existing local
entry with a free local lock: it only acquires and releases the writer lock
and returns, issuing no command. -/
theorem create_no_ecache_rerun (localDir : String) (tag : SvnCacheTag) (id : String)
    (w : SvnWorld) (h1 : w.localLock.writer = none) (h2 : w.localLock.readers = []) :
    create_no_ecache localDir none tag id false w =
      ({ w with localLock :=
          { readers := [], writer := none, tid := w.localLock.tid + 2 } }, none) := by
  unfold create_no_ecache writerLock writerUnlock writeRow
  simp [h1, h2]

/-- A successful no-external-entry `create` leaves the local lock free and a
local entry present on disk. -/
theorem create_no_ecache_ok_facts (localDir : String) (tag : SvnCacheTag) (id : String)
    (isNew : Bool) (w w1 : SvnWorld)
    (h : create_no_ecache localDir none tag id isNew w = (w1, none))
    (hl : isNew = false → w.localRev.isSome = true) :
    w1.localLock.writer = none ∧ w1.localLock.readers = [] ∧
    w1.localRev.isSome = true := by
  unfold create_no_ecache at h
  cases hwl : writerLock id w.localLock with
  | error e =>
      rw [hwl] at h
      exact absurd (congrArg Prod.snd h) (by simp)
  | ok ll =>
      rw [hwl] at h
      obtain ⟨hw0, hr0, hll⟩ := writerLock_ok_elim id _ ll hwl
      subst hll
      simp only [writerUnlock, writeRow] at h
      cases isNew with
      | false =>
          simp only [Bool.false_eq_true, if_false] at h
          rw [if_neg (show ¬(some id ≠ some id) from by simp)] at h
          injection h with h1 h2
          rw [← h1]
          exact ⟨rfl, rfl, hl rfl⟩
      | true =>
          simp only [if_true] at h
          rw [if_neg (show ¬(some id ≠ some id) from by simp)] at h
          injection h with h1 h2
          rw [← h1]
          exact ⟨rfl, rfl, rfl⟩

/-- `svn info` is not a fetch, so logging it does not change the fetch count. -/
theorem fetchCount_append_info (l : List SvnCmd) (p : String) :
    fetchCount (l ++ [SvnCmd.info p]) = fetchCount l := by
  simp [fetchCount, List.filter_append, SvnCmd.isFetch]

/-- Claim C6 (amended): with no external tier configured, `create` is
idempotent — after one successful `create(tag, rev)`, a second identical call
succeeds, issues no remote fetch or VCS-mutating command (its only command is
the read-only `svn info` lookup of the local entry), and leaves the local
entry's on-disk state unchanged.  (With an external tier configured the
second call may issue a fetch, per the counterexample.) -/
theorem create_idempotent_local_only (localDir : String) (tag : SvnCacheTag)
    (id : String) (rev : Nat) (w0 w1 : SvnWorld)
    (h : SvnCache.create localDir none tag id rev w0 = (w1, none)) :
    (SvnCache.create localDir none tag id rev w1).2 = none ∧
    (SvnCache.create localDir none tag id rev w1).1.localRev = w1.localRev ∧
    (SvnCache.create localDir none tag id rev w1).1.log
      = w1.log ++ [SvnCmd.info (cache_path localDir tag)] ∧
    fetchCount (SvnCache.create localDir none tag id rev w1).1.log
      = fetchCount w1.log := by
  have hfacts : w1.localLock.writer = none ∧ w1.localLock.readers = [] ∧
      w1.localRev.isSome = true := by
    unfold SvnCache.create at h
    cases hl0 : w0.localRev with
    | some r0 =>
        rw [hl0] at h
        exact create_no_ecache_ok_facts _ _ _ _ _ _ h (fun _ => rfl)
    | none =>
        rw [hl0] at h
        refine create_no_ecache_ok_facts _ _ _ _ _ _ h ?_
        intro hh
        exfalso
        have hh2 : (!w0.localRev.isSome) = false := hh
        rw [hl0] at hh2
        exact Bool.noConfusion hh2
  obtain ⟨hwriter, hreaders, hsome⟩ := hfacts
  obtain ⟨r1, hr1⟩ := Option.isSome_iff_exists.mp hsome
  have h2 : SvnCache.create localDir none tag id rev w1 =
      ({ w1 with log := (w1.log ++ [SvnCmd.info (cache_path localDir tag)]),
                 localLock := { readers := [], writer := none,
                                tid := w1.localLock.tid + 2 } }, none) := by
    unfold SvnCache.create
    rw [hr1]
    exact create_no_ecache_rerun localDir tag id _ hwriter hreaders
  rw [h2]
  exact ⟨rfl, rfl, rfl, fetchCount_append_info _ _⟩

/-- Witness for `create_idempotent_local_only`: first `create` on a concrete
world with an existing local entry at revision 4, then the second call is
error-free. -/
theorem create_idempotent_local_only_witness :
    (SvnCache.create "local" none (SvnCacheTag.mk "url" "h") (lockidOf 7) 5
        (SvnCache.create "local" none (SvnCacheTag.mk "url" "h") (lockidOf 7) 5
          { localRev := some 4, externRev := none, localLock := initRow,
            externLock := initRow, remoteHead := 9, log := [] }).1).2 = none :=
  (create_idempotent_local_only "local" (SvnCacheTag.mk "url" "h") (lockidOf 7) 5
    { localRev := some 4, externRev := none, localLock := initRow,
      externLock := initRow, remoteHead := 9, log := [] }
    (SvnCache.create "local" none (SvnCacheTag.mk "url" "h") (lockidOf 7) 5
      { localRev := some 4, externRev := none, localLock := initRow,
        externLock := initRow, remoteHead := 9, log := [] }).1 rfl).1


/-!
CheckoutSwitcher: shallow embedding of `SvnCache.switch_checkout`
(the part that rebuilds the working directory's `.svn`).

Inside the working directory, the source removes any pre-existing `.svn`
entirely (`shutil.rmtree`), creates fresh `.svn` and `.svn/tmp` directories,
lists the cache entry's `.svn` (`os.listdir` — unique names), drops `tmp`
from that listing (`list.remove`, first occurrence), and symlinks each
remaining name from the cache into the working `.svn`.  The model returns the
resulting contents of the working directory's `.svn` as a list of
(name, node) pairs; the trailing `svn cleanup`/`svn update -r`/`svn revert`
calls touch the working copy's file content, not the `.svn` listing.
-/

/-- A node in the rebuilt metadata directory: the one real transient
directory, or a symlink to a path inside the cache entry's `.svn`. -/
inductive FsNode where
  | dir
  | symlink (target : String)
deriving DecidableEq, Repr

/-- `SvnCache.switch_checkout`, restricted to its effect on the working
directory's `.svn` listing.  `oldSvn` is the pre-existing metadata directory
(`none` if absent); it is removed wholesale.  `cacheSvnPath` is
`os.path.join(cache.path, '.svn')` and `cacheListing` its directory listing. -/
def switch_checkout_svndir (oldSvn : Option (List (String × FsNode)))
    (cacheSvnPath : String) (cacheListing : List String) :
    List (String × FsNode) :=
  -- if os.path.exists('.svn'): shutil.rmtree('.svn') — oldSvn is discarded
  let _ := oldSvn
  -- os.mkdir('.svn'); os.mkdir('.svn/tmp')
  -- dirs = list(os.listdir(cache_svn)); if 'tmp' in dirs: dirs.remove('tmp')
  let dirs := if "tmp" ∈ cacheListing then cacheListing.erase "tmp"
              else cacheListing
  -- for f in dirs: os.symlink(os.path.join(cache_svn, f), os.path.join('.svn', f))
  ("tmp", FsNode.dir) ::
    dirs.map (fun f => (f, FsNode.symlink (cacheSvnPath ++ "/" ++ f)))

/-- Claim C9: for every pre-existing metadata state and every cache entry
listing (directory listings have distinct names), the rebuilt `.svn` contains
exactly the fresh transient `tmp` directory plus one symlink per other entry
of the cache entry's `.svn` at switch time — independent of the prior
metadata, i.e. with no leftover entries — and its names are distinct. -/
theorem switch_checkout_rebuilds_exactly
    (oldSvn : Option (List (String × FsNode))) (cacheSvnPath : String)
    (cacheListing : List String) (hnd : cacheListing.Nodup) :
    (∀ (f : String) (node : FsNode),
        (f, node) ∈ switch_checkout_svndir oldSvn cacheSvnPath cacheListing ↔
          ((f = "tmp" ∧ node = FsNode.dir) ∨
            (f ∈ cacheListing ∧ f ≠ "tmp" ∧
              node = FsNode.symlink (cacheSvnPath ++ "/" ++ f)))) ∧
    ((switch_checkout_svndir oldSvn cacheSvnPath cacheListing).map
        Prod.fst).Nodup := by
  have hdirs : ∀ f, f ∈ (if "tmp" ∈ cacheListing then cacheListing.erase "tmp"
      else cacheListing) ↔ (f ∈ cacheListing ∧ f ≠ "tmp") := by
    intro f
    by_cases htmp : "tmp" ∈ cacheListing
    · rw [if_pos htmp, hnd.mem_erase_iff]
      constructor
      · rintro ⟨hne, hmem⟩
        exact ⟨hmem, hne⟩
      · rintro ⟨hmem, hne⟩
        exact ⟨hne, hmem⟩
    · rw [if_neg htmp]
      constructor
      · intro hmem
        refine ⟨hmem, ?_⟩
        intro heq
        exact htmp (heq ▸ hmem)
      · exact fun hm => hm.1
  constructor
  · intro f node
    unfold switch_checkout_svndir
    simp only [List.mem_cons, List.mem_map, Prod.mk.injEq]
    constructor
    · rintro (⟨hf, hn⟩ | ⟨a, hmem, ha, hn⟩)
      · exact Or.inl ⟨hf, hn⟩
      · rw [ha] at hmem hn
        obtain ⟨hmem2, hne⟩ := (hdirs f).mp hmem
        exact Or.inr ⟨hmem2, hne, hn.symm⟩
    · rintro (⟨hf, hn⟩ | ⟨hmem, hne, hn⟩)
      · exact Or.inl ⟨hf, hn⟩
      · exact Or.inr ⟨f, (hdirs f).mpr ⟨hmem, hne⟩, rfl, hn.symm⟩
  · unfold switch_checkout_svndir
    simp only [List.map_cons, List.map_map]
    refine List.nodup_cons.mpr ⟨?_, ?_⟩
    · intro hmem
      simp only [List.mem_map, Function.comp] at hmem
      obtain ⟨a, hmem, ha⟩ := hmem
      have := (hdirs a).mp hmem
      exact this.2 ha
    · have hsub : (if "tmp" ∈ cacheListing then cacheListing.erase "tmp"
          else cacheListing).Nodup := by
        by_cases htmp : "tmp" ∈ cacheListing
        · rw [if_pos htmp]
          exact hnd.erase "tmp"
        · rw [if_neg htmp]
          exact hnd
      refine List.Nodup.map ?_ hsub
      intro a b hab
      simpa using hab

/-- Witness for `switch_checkout_rebuilds_exactly`: concrete prior metadata
with leftovers (a stale symlink and a stale `pristine` entry) and a concrete
cache listing containing `tmp`, `entries` and `wc.db`. -/
theorem switch_checkout_rebuilds_exactly_witness :
    ("entries", FsNode.symlink ("cache/h/.svn" ++ "/" ++ "entries")) ∈
      switch_checkout_svndir
        (some [("stale", FsNode.symlink "elsewhere"), ("pristine", FsNode.dir)])
        "cache/h/.svn" ["tmp", "entries", "wc.db"] :=
  ((switch_checkout_rebuilds_exactly
      (some [("stale", FsNode.symlink "elsewhere"), ("pristine", FsNode.dir)])
      "cache/h/.svn" ["tmp", "entries", "wc.db"] (by decide)).1
    "entries" (FsNode.symlink ("cache/h/.svn" ++ "/" ++ "entries"))).mpr
    (Or.inr ⟨by decide, by decide, rfl⟩)

end GgitSvn
